import Mathlib

/-!
X86 assembly-syntax descriptors (`X86MCAsmInfo.cpp`).

A shallow embedding of `llvm/lib/Target/X86/MCTargetDesc/X86MCAsmInfo.cpp`.

The C++ constructors run after a base-class constructor has filled the object
with defaults and then overwrite some members.  The base classes
(`MCAsmInfo`, `MCAsmInfoDarwin`, `MCAsmInfoMicrosoft`, `MCAsmInfoGNUCOFF`) are
declared in headers that are not part of this translation unit, so every
constructor below is a function of the object state `this` left by its base
class: the body of the constructor is what is embedded, statement by statement.
The command-line option `AsmWriterFlavor` is a global that the constructors
only read; it is passed explicitly.
-/

namespace X86MCAsmInfo

/-! ## Types used by the translation unit -/

/-- The two assembler dialects: `enum AsmWriterFlavorTy { ATT = 0, Intel = 1 }`. -/
inductive AsmWriterFlavorTy where
  | ATT
  | Intel
  deriving DecidableEq, Repr

/-- Numeric value of an enumerator, as fixed in the declaration (`ATT = 0, Intel = 1`). -/
def AsmWriterFlavorTy.toNat : AsmWriterFlavorTy → Nat
  | .ATT => 0
  | .Intel => 1

/-- Architectures of `Triple::ArchType`.  The translation unit names `x86` and
`x86_64`; every other enumerator of the (absent) declaration is `other n`. -/
inductive ArchType where
  | x86
  | x86_64
  | other (tag : Nat)
  deriving DecidableEq, Repr

/-- Operating systems of `Triple::OSType`.  The translation unit names
`OpenBSD`; every other enumerator of the (absent) declaration is `other n`. -/
inductive OSType where
  | OpenBSD
  | other (tag : Nat)
  deriving DecidableEq, Repr

/-- A target triple: architecture, vendor, operating system, environment.
Vendor and environment are never inspected here and are kept as tags. -/
structure Triple where
  Arch : ArchType
  Vendor : Nat
  OS : OSType
  Environment : Nat
  deriving DecidableEq, Repr

/-- The accessor `Triple::getArch()`. -/
def Triple.getArch (T : Triple) : ArchType := T.Arch

/-- The accessor `Triple::getOS()`. -/
def Triple.getOS (T : Triple) : OSType := T.OS

/-- Exception models of `ExceptionHandling`.  The translation unit names
`DwarfCFI`; `None` is the unset value; other enumerators are `other n`. -/
inductive ExceptionHandling where
  | None
  | DwarfCFI
  | other (tag : Nat)
  deriving DecidableEq, Repr

/-- A `const char *const []` table: a sequence of C strings in which a null
pointer is `none`. -/
abbrev AsmTable := List (Option String)

/-- The members of `MCAsmInfo` that this translation unit assigns.  A
`const char *` member is an `Option String` (`none` is the null pointer). -/
structure MCAsmInfo where
  PointerSize : Nat
  AsmTransCBE : Option AsmTable
  AssemblerDialect : Nat
  TextAlignFillValue : Nat
  Data64bitsDirective : Option String
  CommentString : Option String
  PCSymbol : Option String
  GlobalPrefix : Option String
  PrivateGlobalPrefix : Option String
  WeakRefDirective : Option String
  HasLEB128 : Bool
  SupportsDebugInformation : Bool
  DwarfUsesInlineInfoSection : Bool
  ExceptionsType : ExceptionHandling
  deriving DecidableEq, Repr

/-- The descriptor field `has64BitDataDirective`: the directive pointer is not null. -/
def MCAsmInfo.has64BitDataDirective (I : MCAsmInfo) : Bool :=
  I.Data64bitsDirective.isSome

/-! ## The register-alias table -/

/-- The static table `x86_asm_table` (source lines 38-49): ten pairs followed
by the `0, 0` terminator.  The names are `{si}`, `{di}`, `{ax}`, `{cx}`,
`{memory}`, `{flags}`, `{dirflag}`, `{fpsr}`, `{fpcr}`, `{cc}`. -/
def x86_asm_table : AsmTable :=
  [ some "\x7bsi\x7d", some "S",
    some "\x7bdi\x7d", some "D",
    some "\x7bax\x7d", some "a",
    some "\x7bcx\x7d", some "c",
    some "\x7bmemory\x7d", some "memory",
    some "\x7bflags\x7d", some "",
    some "\x7bdirflag\x7d", some "",
    some "\x7bfpsr\x7d", some "",
    some "\x7bfpcr\x7d", some "",
    some "\x7bcc\x7d", some "cc",
    none, none ]

/-! ## The constructors -/

/-- The body of `X86MCAsmInfoDarwin::X86MCAsmInfoDarwin(const Triple &T)`
(source lines 53-79), run on the state `this` left by `MCAsmInfoDarwin`. -/
def X86MCAsmInfoDarwin (AsmWriterFlavor : AsmWriterFlavorTy) (T : Triple)
    (this : MCAsmInfo) : MCAsmInfo :=
  let is64Bit : Bool := T.getArch == ArchType.x86_64
  let this := if is64Bit then { this with PointerSize := 8 } else this
  let this := { this with AsmTransCBE := some x86_asm_table }
  let this := { this with AssemblerDialect := AsmWriterFlavor.toNat }
  let this := { this with TextAlignFillValue := 0x90 }
  let this := if !is64Bit then { this with Data64bitsDirective := none } else this
  let this := { this with CommentString := some "##" }
  let this := { this with PCSymbol := some "." }
  let this := { this with SupportsDebugInformation := true }
  let this := { this with DwarfUsesInlineInfoSection := true }
  { this with ExceptionsType := ExceptionHandling.DwarfCFI }

/-- The constructor `X86_64MCAsmInfoDarwin::X86_64MCAsmInfoDarwin` (source
lines 81-83): it runs the `X86MCAsmInfoDarwin` constructor and has an empty body. -/
def X86_64MCAsmInfoDarwin (AsmWriterFlavor : AsmWriterFlavorTy) (T : Triple)
    (this : MCAsmInfo) : MCAsmInfo :=
  X86MCAsmInfoDarwin AsmWriterFlavor T this

/-- The body of `X86ELFMCAsmInfo::X86ELFMCAsmInfo(const Triple &T)`
(source lines 87-113), run on the state `this` left by `MCAsmInfo`. -/
def X86ELFMCAsmInfo (AsmWriterFlavor : AsmWriterFlavorTy) (T : Triple)
    (this : MCAsmInfo) : MCAsmInfo :=
  let this := if T.getArch == ArchType.x86_64 then { this with PointerSize := 8 } else this
  let this := { this with AsmTransCBE := some x86_asm_table }
  let this := { this with AssemblerDialect := AsmWriterFlavor.toNat }
  let this := { this with TextAlignFillValue := 0x90 }
  let this := { this with PrivateGlobalPrefix := some ".L" }
  let this := { this with WeakRefDirective := some "\t.weak\t" }
  let this := { this with PCSymbol := some "." }
  let this := { this with HasLEB128 := true }
  let this := { this with SupportsDebugInformation := true }
  let this := { this with ExceptionsType := ExceptionHandling.DwarfCFI }
  if T.getOS == OSType.OpenBSD && T.getArch == ArchType.x86 then
    { this with Data64bitsDirective := none }
  else this

/-- The body of `X86MCAsmInfoMicrosoft::X86MCAsmInfoMicrosoft(const Triple &Triple)`
(source lines 134-144), run on the state `this` left by `MCAsmInfoMicrosoft`. -/
def X86MCAsmInfoMicrosoft (AsmWriterFlavor : AsmWriterFlavorTy) (T : Triple)
    (this : MCAsmInfo) : MCAsmInfo :=
  let this :=
    if T.getArch == ArchType.x86_64 then
      let this := { this with GlobalPrefix := some "" }
      { this with PrivateGlobalPrefix := some ".L" }
    else this
  let this := { this with AsmTransCBE := some x86_asm_table }
  let this := { this with AssemblerDialect := AsmWriterFlavor.toNat }
  { this with TextAlignFillValue := 0x90 }

/-- The body of `X86MCAsmInfoGNUCOFF::X86MCAsmInfoGNUCOFF(const Triple &Triple)`
(source lines 148-161), run on the state `this` left by `MCAsmInfoGNUCOFF`. -/
def X86MCAsmInfoGNUCOFF (AsmWriterFlavor : AsmWriterFlavorTy) (T : Triple)
    (this : MCAsmInfo) : MCAsmInfo :=
  let this :=
    if T.getArch == ArchType.x86_64 then
      let this := { this with GlobalPrefix := some "" }
      { this with PrivateGlobalPrefix := some ".L" }
    else this
  let this := { this with AsmTransCBE := some x86_asm_table }
  let this := { this with AssemblerDialect := AsmWriterFlavor.toNat }
  let this := { this with TextAlignFillValue := 0x90 }
  { this with ExceptionsType := ExceptionHandling.DwarfCFI }

/-- The four variant classes that have a constructor body in this translation unit. -/
inductive Variant where
  | Darwin
  | ELF
  | Microsoft
  | GNUCOFF
  deriving DecidableEq, Repr

/-- Dispatch to the constructor of a variant. -/
def Variant.construct (v : Variant) (AsmWriterFlavor : AsmWriterFlavorTy) (T : Triple)
    (this : MCAsmInfo) : MCAsmInfo :=
  match v with
  | .Darwin => X86MCAsmInfoDarwin AsmWriterFlavor T this
  | .ELF => X86ELFMCAsmInfo AsmWriterFlavor T this
  | .Microsoft => X86MCAsmInfoMicrosoft AsmWriterFlavor T this
  | .GNUCOFF => X86MCAsmInfoGNUCOFF AsmWriterFlavor T this

/-- Modelled from the spec: the base-class constructors (`MCAsmInfo` and its
format subclasses) are not among the sources.  This is one object state with
the base defaults the spec names: pointer size 4, 64-bit data directive present,
no weak-reference directive, no debug information, exception model none.  The
remaining members hold placeholder values; the theorems below hold for every
base state and use this one only as a concrete input. -/
def sampleBase : MCAsmInfo :=
  { PointerSize := 4
    AsmTransCBE := none
    AssemblerDialect := 0
    TextAlignFillValue := 0
    Data64bitsDirective := some "\t.quad\t"
    CommentString := some "#"
    PCSymbol := some "$"
    GlobalPrefix := some "_"
    PrivateGlobalPrefix := some "."
    WeakRefDirective := none
    HasLEB128 := false
    SupportsDebugInformation := false
    DwarfUsesInlineInfoSection := false
    ExceptionsType := ExceptionHandling.None }

/-- A 64-bit Linux-like triple. -/
def tripleX64 : Triple :=
  { Arch := ArchType.x86_64, Vendor := 0, OS := OSType.other 0, Environment := 0 }

/-- A 32-bit Linux-like triple. -/
def tripleX86 : Triple :=
  { Arch := ArchType.x86, Vendor := 0, OS := OSType.other 0, Environment := 0 }

/-- A 32-bit OpenBSD triple. -/
def tripleOpenBSD32 : Triple :=
  { Arch := ArchType.x86, Vendor := 0, OS := OSType.OpenBSD, Environment := 0 }

/-- A 64-bit OpenBSD triple. -/
def tripleOpenBSD64 : Triple :=
  { Arch := ArchType.x86_64, Vendor := 0, OS := OSType.OpenBSD, Environment := 0 }

/-! ## Process-wide state -/

/-- A symbol (`MCSymbol`), identified by its name. -/
structure MCSymbol where
  Name : String
  deriving DecidableEq, Repr

/-- Relocation kinds of `MCSymbolRefExpr::VariantKind`.  The translation unit
names `VK_GOTPCREL`; other enumerators of the (absent) declaration are `other n`. -/
inductive VariantKind where
  | VK_None
  | VK_GOTPCREL
  | other (tag : Nat)
  deriving DecidableEq, Repr

/-- Opcodes of `MCBinaryExpr::Opcode`.  `CreateAdd` uses `Add`; other
enumerators of the (absent) declaration are `other n`. -/
inductive Opcode where
  | Add
  | other (tag : Nat)
  deriving DecidableEq, Repr

/-- Expression nodes (`MCExpr`) that the translation unit builds: symbol
references, constants (`int64_t` values) and binary expressions. -/
inductive MCExpr where
  | SymbolRef (Symbol : MCSymbol) (Kind : VariantKind)
  | Constant (Value : Int)
  | Binary (Op : Opcode) (LHS RHS : MCExpr)
  deriving DecidableEq, Repr

/-- The context (`MCContext`) in which expression nodes and sections are
allocated, identified by a tag. -/
structure MCContext where
  Tag : Nat
  deriving DecidableEq, Repr

/-- The streamer (`MCStreamer`), of which only its context is used. -/
structure MCStreamer where
  Context : MCContext
  deriving DecidableEq, Repr

/-- The accessor `MCStreamer::getContext()`. -/
def MCStreamer.getContext (Streamer : MCStreamer) : MCContext := Streamer.Context

/-- Modelled from the spec: `MCSymbolRefExpr::Create` is declared in `MCExpr.h`,
which is not among the sources.  It builds the symbol-reference node with the
given relocation kind; the context only owns the storage. -/
def MCSymbolRefExpr.Create (Sym : MCSymbol) (Kind : VariantKind) (_Ctx : MCContext) : MCExpr :=
  MCExpr.SymbolRef Sym Kind

/-- Modelled from the spec: `MCConstantExpr::Create` is declared in `MCExpr.h`,
which is not among the sources.  It builds the constant node. -/
def MCConstantExpr.Create (Value : Int) (_Ctx : MCContext) : MCExpr :=
  MCExpr.Constant Value

/-- Modelled from the spec: `MCBinaryExpr::CreateAdd` is declared in `MCExpr.h`,
which is not among the sources.  It builds the binary node with opcode `Add`. -/
def MCBinaryExpr.CreateAdd (LHS RHS : MCExpr) (_Ctx : MCContext) : MCExpr :=
  MCExpr.Binary Opcode.Add LHS RHS

/-- The method `X86_64MCAsmInfoDarwin::getExprForPersonalitySymbol` (source
lines 115-124).  `Encoding` is the encoding hint, which the body never reads. -/
def X86_64MCAsmInfoDarwin.getExprForPersonalitySymbol (Sym : MCSymbol) (_Encoding : Nat)
    (Streamer : MCStreamer) : MCExpr :=
  let Context := Streamer.getContext
  let Res := MCSymbolRefExpr.Create Sym VariantKind.VK_GOTPCREL Context
  let Four := MCConstantExpr.Create 4 Context
  MCBinaryExpr.CreateAdd Res Four Context

/-! ## Lookup in the register-alias table -/

/-- The three outcomes of a lookup by symbolic name. -/
inductive AliasLookup where
  | native (spelling : String)
  | omit
  | unknown
  deriving DecidableEq, Repr

/-- Modelled from the spec: the lookup-by-name function over the register-alias
table belongs to the consumer of `AsmTransCBE` and is not among the sources.
The table is read two entries at a time up to the null terminator; the first
pair whose symbolic name equals `name` decides: a non-empty native spelling is
returned as it is, an empty one means "omit"; a name not found is "unknown". -/
def lookupAlias : AsmTable → String → AliasLookup
  | some key :: some spelling :: rest, name =>
      if name = key then
        (if spelling = "" then AliasLookup.omit else AliasLookup.native spelling)
      else lookupAlias rest name
  | _, _ => AliasLookup.unknown

/-- The complete pairs of a table, read two entries at a time up to the first
null pointer, the way a `for (...; *Table; Table += 2)` loop reads it. -/
def tablePairs : AsmTable → List (String × String)
  | some key :: some spelling :: rest => (key, spelling) :: tablePairs rest
  | _ => []

/-- The array that lays out a list of pairs followed by the `0, 0` terminator. -/
def layoutPairs (pairs : List (String × String)) : AsmTable :=
  pairs.flatMap (fun p => [some p.1, some p.2]) ++ [none, none]

/-- Modelled from the spec: a lookup that lets the last matching pair decide
instead of the first one; it exists only to be compared with `lookupAlias`. -/
def lookupAliasLast : AsmTable → String → AliasLookup
  | some key :: some spelling :: rest, name =>
      match lookupAliasLast rest name with
      | AliasLookup.unknown =>
          if name = key then
            (if spelling = "" then AliasLookup.omit else AliasLookup.native spelling)
          else AliasLookup.unknown
      | found => found
  | _, _ => AliasLookup.unknown

/-- A symbolic name of the form `{...}`: it opens with a left brace, closes
with a right brace, and so has at least two characters. -/
def isBraced (s : String) : Bool :=
  s.data.head? == some (Char.ofNat 0x7b) && s.data.getLast? == some (Char.ofNat 0x7d)
    && decide (2 ≤ s.data.length)

/-! ## The dialect selector's configuration -/

/-- The `cl::values` list of the option `x86-asm-syntax` (source lines 33-35):
enumerator, literal, description. -/
def AsmWriterFlavorValues : List (AsmWriterFlavorTy × String × String) :=
  [ (AsmWriterFlavorTy.ATT, "att", "Emit AT&T-style assembly"),
    (AsmWriterFlavorTy.Intel, "intel", "Emit Intel-style assembly") ]

/-- The initial value of the option: `cl::init(ATT)` (source line 31). -/
def AsmWriterFlavorInit : AsmWriterFlavorTy := AsmWriterFlavorTy.ATT

/-- The literals the option accepts, in declaration order. -/
def AsmWriterFlavorLiterals : List String :=
  AsmWriterFlavorValues.map (fun e => e.2.1)

/-- Modelled from the spec: the option parser (`cl::opt`, `CommandLine.h`) is
not among the sources.  With no configuration input the value is the documented
default; a supplied literal selects the enumerator declared for it; any other
input fails with an error that carries the allowed literals, and never falls
back to a default. -/
def parseAsmWriterFlavor : Option String → Except (List String) AsmWriterFlavorTy
  | none => Except.ok AsmWriterFlavorInit
  | some arg =>
      match AsmWriterFlavorValues.find? (fun e => e.2.1 == arg) with
      | some e => Except.ok e.1
      | none => Except.error AsmWriterFlavorLiterals

/-! ## The non-executable-stack section and virtual dispatch -/

/-- ELF section types (`ELF::SHT_*`).  The translation unit names
`SHT_PROGBITS`; other enumerators of the (absent) declaration are `other n`. -/
inductive ELF.SectionType where
  | SHT_PROGBITS
  | other (tag : Nat)
  deriving DecidableEq, Repr

/-- Section kinds (`SectionKind`).  The translation unit asks for the metadata
kind; other kinds of the (absent) declaration are `other n`. -/
inductive SectionKind where
  | Metadata
  | other (tag : Nat)
  deriving DecidableEq, Repr

/-- The factory `SectionKind::getMetadata()`. -/
def SectionKind.getMetadata : SectionKind := SectionKind.Metadata

/-- A section (`MCSection`) handed out by a context, described by the data an
ELF section is looked up by. -/
structure MCSection where
  SectionName : String
  SectionType : ELF.SectionType
  Flags : Nat
  Kind : SectionKind
  deriving DecidableEq, Repr

/-- The signature of `MCContext::getELFSection(Section, Type, Flags, Kind)`,
which is declared in `MCContext.h` and is not among the sources: the method is
a parameter of what follows. -/
abbrev GetELFSection := MCContext → String → ELF.SectionType → Nat → SectionKind → MCSection

/-- The method `X86ELFMCAsmInfo::getNonexecutableStackSection` (source lines
126-130).  The method is `const` and reads no member of the descriptor
`this`. -/
def X86ELFMCAsmInfo.getNonexecutableStackSection (getELFSection : GetELFSection)
    (_this : MCAsmInfo) (Ctx : MCContext) : MCSection :=
  getELFSection Ctx ".note.GNU-stack" ELF.SectionType.SHT_PROGBITS 0 SectionKind.getMetadata

/-- The five descriptor classes that this translation unit defines members of. -/
inductive X86Class where
  | Darwin
  | Darwin64
  | ELF
  | Microsoft
  | GNUCOFF
  deriving DecidableEq, Repr

/-- Modelled from the spec: the base-class method
`MCAsmInfo::getNonexecutableStackSection` is not among the sources.  The spec's
base behaviour is "not supported for this format", here `none`. -/
def MCAsmInfo.getNonexecutableStackSection (_this : MCAsmInfo) (_Ctx : MCContext) :
    Option MCSection :=
  none

/-- Modelled from the spec: the base-class method
`MCAsmInfo::getExprForPersonalitySymbol` is not among the sources.  The spec's
base behaviour is "not supported for this format", here `none`. -/
def MCAsmInfo.getExprForPersonalitySymbol (_this : MCAsmInfo) (_Sym : MCSymbol)
    (_Encoding : Nat) (_Streamer : MCStreamer) : Option MCExpr :=
  none

/-- Virtual call of `getNonexecutableStackSection` on an object of class `c`:
the translation unit defines this member for `X86ELFMCAsmInfo` only (source
lines 126-130); every other class inherits the base method. -/
def X86Class.getNonexecutableStackSection (c : X86Class) (getELFSection : GetELFSection)
    (this : MCAsmInfo) (Ctx : MCContext) : Option MCSection :=
  match c with
  | .ELF => some (X86ELFMCAsmInfo.getNonexecutableStackSection getELFSection this Ctx)
  | .Darwin => MCAsmInfo.getNonexecutableStackSection this Ctx
  | .Darwin64 => MCAsmInfo.getNonexecutableStackSection this Ctx
  | .Microsoft => MCAsmInfo.getNonexecutableStackSection this Ctx
  | .GNUCOFF => MCAsmInfo.getNonexecutableStackSection this Ctx

/-- Virtual call of `getExprForPersonalitySymbol` on an object of class `c`:
the translation unit defines this member for `X86_64MCAsmInfoDarwin` only
(source lines 115-124); every other class inherits the base method. -/
def X86Class.getExprForPersonalitySymbol (c : X86Class) (this : MCAsmInfo) (Sym : MCSymbol)
    (Encoding : Nat) (Streamer : MCStreamer) : Option MCExpr :=
  match c with
  | .Darwin64 => some (X86_64MCAsmInfoDarwin.getExprForPersonalitySymbol Sym Encoding Streamer)
  | .Darwin => MCAsmInfo.getExprForPersonalitySymbol this Sym Encoding Streamer
  | .ELF => MCAsmInfo.getExprForPersonalitySymbol this Sym Encoding Streamer
  | .Microsoft => MCAsmInfo.getExprForPersonalitySymbol this Sym Encoding Streamer
  | .GNUCOFF => MCAsmInfo.getExprForPersonalitySymbol this Sym Encoding Streamer

/-- A section lookup that returns the section described by its arguments; used
as a concrete input. -/
def sampleGetELFSection : GetELFSection :=
  fun _ name ty flags kind =>
    { SectionName := name, SectionType := ty, Flags := flags, Kind := kind }

/-- A 32-bit triple with another vendor, OS and environment than `tripleX86`. -/
def tripleX86Other : Triple :=
  { Arch := ArchType.x86, Vendor := 3, OS := OSType.other 7, Environment := 2 }

/-- A 32-bit OpenBSD triple with another vendor and environment than
`tripleOpenBSD32`. -/
def tripleOpenBSD32Other : Triple :=
  { Arch := ArchType.x86, Vendor := 5, OS := OSType.OpenBSD, Environment := 1 }

/-! ## Pointer size -/

/-- The Mach-O constructor sets the pointer size to 8 exactly on `x86_64` and
otherwise leaves the base value. -/
theorem darwin_pointerSize (d : AsmWriterFlavorTy) (T : Triple) (this : MCAsmInfo) :
    (X86MCAsmInfoDarwin d T this).PointerSize
      = if T.getArch = ArchType.x86_64 then 8 else this.PointerSize := by
  unfold X86MCAsmInfoDarwin
  by_cases h : T.getArch = ArchType.x86_64 <;> simp [h]

/-- The ELF constructor sets the pointer size to 8 exactly on `x86_64` and
otherwise leaves the base value. -/
theorem elf_pointerSize (d : AsmWriterFlavorTy) (T : Triple) (this : MCAsmInfo) :
    (X86ELFMCAsmInfo d T this).PointerSize
      = if T.getArch = ArchType.x86_64 then 8 else this.PointerSize := by
  unfold X86ELFMCAsmInfo
  by_cases h : T.getArch = ArchType.x86_64 <;>
    by_cases h2 : (T.getOS == OSType.OpenBSD && T.getArch == ArchType.x86) = true <;>
    simp [h, h2]

/-- Neither COFF constructor assigns `PointerSize`: the base value survives for
every triple, `x86_64` included. -/
theorem coff_pointerSize_untouched (d : AsmWriterFlavorTy) (T : Triple) (this : MCAsmInfo) :
    (X86MCAsmInfoMicrosoft d T this).PointerSize = this.PointerSize ∧
    (X86MCAsmInfoGNUCOFF d T this).PointerSize = this.PointerSize := by
  unfold X86MCAsmInfoMicrosoft X86MCAsmInfoGNUCOFF
  by_cases h : T.getArch = ArchType.x86_64 <;> simp [h]

/-- C1 (evaluation at the failing input): on an `x86_64` triple the Mach-O and
ELF constructors produce pointer size 8, while the Microsoft COFF and GNU COFF
constructors leave the base default 4, so for the COFF variants "pointer size
is 8 iff the architecture is x86_64" does not hold. -/
theorem C1_coff_pointerSize_on_x86_64 :
    tripleX64.getArch = ArchType.x86_64 ∧
    (X86MCAsmInfoDarwin .ATT tripleX64 sampleBase).PointerSize = 8 ∧
    (X86ELFMCAsmInfo .ATT tripleX64 sampleBase).PointerSize = 8 ∧
    (X86MCAsmInfoMicrosoft .ATT tripleX64 sampleBase).PointerSize = 4 ∧
    (X86MCAsmInfoGNUCOFF .ATT tripleX64 sampleBase).PointerSize = 4 := by
  decide

/-- Whatever the base class leaves in `PointerSize`, no COFF descriptor can
satisfy "pointer size is 8 iff the architecture is x86_64" on all triples: the
result is the same for `x86` and for `x86_64`. -/
theorem coff_pointerSize_iff_fails (d : AsmWriterFlavorTy) (this : MCAsmInfo) :
    ¬ (∀ T : Triple, (X86MCAsmInfoMicrosoft d T this).PointerSize = 8
          ↔ T.getArch = ArchType.x86_64) ∧
    ¬ (∀ T : Triple, (X86MCAsmInfoGNUCOFF d T this).PointerSize = 8
          ↔ T.getArch = ArchType.x86_64) := by
  constructor
  · intro h
    have h1 := h tripleX64
    have h2 := h tripleX86
    rw [(coff_pointerSize_untouched d _ this).1] at h1 h2
    have e : this.PointerSize = 8 := h1.2 rfl
    have := h2.1 e
    simp [tripleX86, Triple.getArch] at this
  · intro h
    have h1 := h tripleX64
    have h2 := h tripleX86
    rw [(coff_pointerSize_untouched d _ this).2] at h1 h2
    have e : this.PointerSize = 8 := h1.2 rfl
    have := h2.1 e
    simp [tripleX86, Triple.getArch] at this

/-! ## The 64-bit data directive -/

/-- The ELF constructor clears the directive exactly for OpenBSD on `x86`. -/
theorem elf_data64 (d : AsmWriterFlavorTy) (T : Triple) (this : MCAsmInfo) :
    (X86ELFMCAsmInfo d T this).Data64bitsDirective
      = if T.getOS = OSType.OpenBSD ∧ T.getArch = ArchType.x86 then none
        else this.Data64bitsDirective := by
  unfold X86ELFMCAsmInfo
  by_cases h : T.getArch = ArchType.x86_64 <;>
    by_cases h1 : T.getOS = OSType.OpenBSD <;>
    by_cases h2 : T.getArch = ArchType.x86 <;>
    simp [h, h1, h2]

/-- The Mach-O constructor clears the directive exactly when the architecture
is not `x86_64`. -/
theorem darwin_data64 (d : AsmWriterFlavorTy) (T : Triple) (this : MCAsmInfo) :
    (X86MCAsmInfoDarwin d T this).Data64bitsDirective
      = if T.getArch = ArchType.x86_64 then this.Data64bitsDirective else none := by
  unfold X86MCAsmInfoDarwin
  by_cases h : T.getArch = ArchType.x86_64 <;> simp [h]

/-- Neither COFF constructor assigns the directive. -/
theorem coff_data64 (d : AsmWriterFlavorTy) (T : Triple) (this : MCAsmInfo) :
    (X86MCAsmInfoMicrosoft d T this).Data64bitsDirective = this.Data64bitsDirective ∧
    (X86MCAsmInfoGNUCOFF d T this).Data64bitsDirective = this.Data64bitsDirective := by
  unfold X86MCAsmInfoMicrosoft X86MCAsmInfoGNUCOFF
  by_cases h : T.getArch = ArchType.x86_64 <;> simp [h]

/-- C2: for the ELF-style descriptor built on a base whose 64-bit data
directive is enabled, `has64BitDataDirective` is false if and only if the OS is
OpenBSD and the architecture is 32-bit x86; for every other combination the
directive keeps its base value and stays enabled. -/
theorem C2_elf_has64BitDataDirective (d : AsmWriterFlavorTy) (T : Triple) (this : MCAsmInfo)
    (hbase : this.has64BitDataDirective = true) :
    ((X86ELFMCAsmInfo d T this).has64BitDataDirective = false
        ↔ T.getOS = OSType.OpenBSD ∧ T.getArch = ArchType.x86) ∧
    (¬ (T.getOS = OSType.OpenBSD ∧ T.getArch = ArchType.x86) →
        (X86ELFMCAsmInfo d T this).Data64bitsDirective = this.Data64bitsDirective ∧
        (X86ELFMCAsmInfo d T this).has64BitDataDirective = true) := by
  unfold MCAsmInfo.has64BitDataDirective at *
  rw [elf_data64]
  by_cases h : T.getOS = OSType.OpenBSD ∧ T.getArch = ArchType.x86
  · simp [h]
  · simp [h, hbase]

/-- C2 at concrete inputs: 32-bit OpenBSD on the sample base. -/
theorem C2_elf_has64BitDataDirective_witness :
    sampleBase.has64BitDataDirective = true ∧
    (((X86ELFMCAsmInfo .ATT tripleOpenBSD32 sampleBase).has64BitDataDirective = false
        ↔ tripleOpenBSD32.getOS = OSType.OpenBSD ∧ tripleOpenBSD32.getArch = ArchType.x86) ∧
    (¬ (tripleOpenBSD32.getOS = OSType.OpenBSD ∧ tripleOpenBSD32.getArch = ArchType.x86) →
        (X86ELFMCAsmInfo .ATT tripleOpenBSD32 sampleBase).Data64bitsDirective
          = sampleBase.Data64bitsDirective ∧
        (X86ELFMCAsmInfo .ATT tripleOpenBSD32 sampleBase).has64BitDataDirective = true)) :=
  ⟨by decide, C2_elf_has64BitDataDirective .ATT tripleOpenBSD32 sampleBase (by decide)⟩

/-- C3: for the Mach-O-style descriptor built on a base whose 64-bit data
directive is enabled, `has64BitDataDirective` is false whenever the
architecture is not `x86_64` (in particular on 32-bit `x86`), and on `x86_64`
the directive is the untouched base value, hence true. -/
theorem C3_darwin_has64BitDataDirective (d : AsmWriterFlavorTy) (T : Triple) (this : MCAsmInfo)
    (hbase : this.has64BitDataDirective = true) :
    (T.getArch = ArchType.x86 → (X86MCAsmInfoDarwin d T this).has64BitDataDirective = false) ∧
    (T.getArch ≠ ArchType.x86_64 →
        (X86MCAsmInfoDarwin d T this).has64BitDataDirective = false) ∧
    (T.getArch = ArchType.x86_64 →
        (X86MCAsmInfoDarwin d T this).Data64bitsDirective = this.Data64bitsDirective ∧
        (X86MCAsmInfoDarwin d T this).has64BitDataDirective = true) := by
  unfold MCAsmInfo.has64BitDataDirective at *
  rw [darwin_data64]
  refine ⟨fun h => ?_, fun h => ?_, fun h => ?_⟩
  · simp [h]
  · simp [h]
  · simp [h, hbase]

/-- C3 at concrete inputs: the 64-bit triple on the sample base. -/
theorem C3_darwin_has64BitDataDirective_witness :
    sampleBase.has64BitDataDirective = true ∧
    ((tripleX64.getArch = ArchType.x86 →
        (X86MCAsmInfoDarwin .Intel tripleX64 sampleBase).has64BitDataDirective = false) ∧
    (tripleX64.getArch ≠ ArchType.x86_64 →
        (X86MCAsmInfoDarwin .Intel tripleX64 sampleBase).has64BitDataDirective = false) ∧
    (tripleX64.getArch = ArchType.x86_64 →
        (X86MCAsmInfoDarwin .Intel tripleX64 sampleBase).Data64bitsDirective
          = sampleBase.Data64bitsDirective ∧
        (X86MCAsmInfoDarwin .Intel tripleX64 sampleBase).has64BitDataDirective = true)) :=
  ⟨by decide, C3_darwin_has64BitDataDirective .Intel tripleX64 sampleBase (by decide)⟩

/-- C4: on a base whose 64-bit data directive is enabled, a constructed
descriptor has `has64BitDataDirective = false` only if it is the Mach-O variant
built from a triple whose architecture is not `x86_64`, or the ELF variant
built from an OpenBSD `x86` triple; both COFF variants always leave it enabled. -/
theorem C4_has64BitDataDirective_false_only (v : Variant) (d : AsmWriterFlavorTy) (T : Triple)
    (this : MCAsmInfo) (hbase : this.has64BitDataDirective = true) :
    ((v.construct d T this).has64BitDataDirective = false →
        (v = Variant.Darwin ∧ T.getArch ≠ ArchType.x86_64) ∨
        (v = Variant.ELF ∧ T.getOS = OSType.OpenBSD ∧ T.getArch = ArchType.x86)) ∧
    (Variant.Microsoft.construct d T this).has64BitDataDirective = true ∧
    (Variant.GNUCOFF.construct d T this).has64BitDataDirective = true := by
  unfold MCAsmInfo.has64BitDataDirective at *
  refine ⟨?_, ?_, ?_⟩
  · cases v <;> simp only [Variant.construct]
    · rw [darwin_data64]
      by_cases h : T.getArch = ArchType.x86_64 <;> simp [h, hbase]
    · rw [elf_data64]
      by_cases h : T.getOS = OSType.OpenBSD ∧ T.getArch = ArchType.x86 <;> simp [h, hbase]
    · rw [(coff_data64 d T this).1]; simp [hbase]
    · rw [(coff_data64 d T this).2]; simp [hbase]
  · simp only [Variant.construct]; rw [(coff_data64 d T this).1]; exact hbase
  · simp only [Variant.construct]; rw [(coff_data64 d T this).2]; exact hbase

/-- C4 at concrete inputs: the ELF variant on 32-bit OpenBSD. -/
theorem C4_has64BitDataDirective_false_only_witness :
    sampleBase.has64BitDataDirective = true ∧
    (((Variant.ELF.construct .ATT tripleOpenBSD32 sampleBase).has64BitDataDirective = false →
        (Variant.ELF = Variant.Darwin ∧ tripleOpenBSD32.getArch ≠ ArchType.x86_64) ∨
        (Variant.ELF = Variant.ELF ∧ tripleOpenBSD32.getOS = OSType.OpenBSD ∧
          tripleOpenBSD32.getArch = ArchType.x86)) ∧
    (Variant.Microsoft.construct .ATT tripleOpenBSD32 sampleBase).has64BitDataDirective = true ∧
    (Variant.GNUCOFF.construct .ATT tripleOpenBSD32 sampleBase).has64BitDataDirective = true) :=
  ⟨by decide,
   C4_has64BitDataDirective_false_only Variant.ELF .ATT tripleOpenBSD32 sampleBase (by decide)⟩

/-! ## The personality expression of the 64-bit Mach-O variant -/

/-- C5: for every symbol, encoding hint and streamer (emission context),
`getExprForPersonalitySymbol` of `X86_64MCAsmInfoDarwin` returns the binary add
whose left operand is the GOTPCREL reference to the symbol and whose right
operand is the constant 4; the result is the same for every encoding hint and
every emission context. -/
theorem C5_personality_expression (Sym : MCSymbol) (Encoding : Nat) (Streamer : MCStreamer) :
    X86_64MCAsmInfoDarwin.getExprForPersonalitySymbol Sym Encoding Streamer
      = MCExpr.Binary Opcode.Add (MCExpr.SymbolRef Sym VariantKind.VK_GOTPCREL)
          (MCExpr.Constant 4) ∧
    (∀ (Encoding2 : Nat) (Streamer2 : MCStreamer),
      X86_64MCAsmInfoDarwin.getExprForPersonalitySymbol Sym Encoding2 Streamer2
        = X86_64MCAsmInfoDarwin.getExprForPersonalitySymbol Sym Encoding Streamer) := by
  constructor
  · simp only [X86_64MCAsmInfoDarwin.getExprForPersonalitySymbol, MCBinaryExpr.CreateAdd,
      MCSymbolRefExpr.Create, MCConstantExpr.Create]
  · intro Encoding2 Streamer2
    simp only [X86_64MCAsmInfoDarwin.getExprForPersonalitySymbol, MCBinaryExpr.CreateAdd,
      MCSymbolRefExpr.Create, MCConstantExpr.Create]

/-! ## Exception model of the COFF variants -/

/-- The GNU COFF constructor always ends with the exception model `DwarfCFI`. -/
theorem gnucoff_exceptionsType (d : AsmWriterFlavorTy) (T : Triple) (this : MCAsmInfo) :
    (X86MCAsmInfoGNUCOFF d T this).ExceptionsType = ExceptionHandling.DwarfCFI := by
  unfold X86MCAsmInfoGNUCOFF
  by_cases h : T.getArch = ArchType.x86_64 <;> simp [h]

/-- The Microsoft COFF constructor never assigns the exception model. -/
theorem microsoft_exceptionsType (d : AsmWriterFlavorTy) (T : Triple) (this : MCAsmInfo) :
    (X86MCAsmInfoMicrosoft d T this).ExceptionsType = this.ExceptionsType := by
  unfold X86MCAsmInfoMicrosoft
  by_cases h : T.getArch = ArchType.x86_64 <;> simp [h]

/-- C6: for every triple, the GNU COFF descriptor has exception model
`DwarfCFI` (whatever its base held), the Microsoft COFF descriptor built on a
base whose exception model is none keeps none, and so the two differ. -/
theorem C6_coff_exception_models (d : AsmWriterFlavorTy) (T : Triple)
    (thisGNU thisMS : MCAsmInfo) (hbase : thisMS.ExceptionsType = ExceptionHandling.None) :
    (X86MCAsmInfoGNUCOFF d T thisGNU).ExceptionsType = ExceptionHandling.DwarfCFI ∧
    (X86MCAsmInfoMicrosoft d T thisMS).ExceptionsType = ExceptionHandling.None ∧
    (X86MCAsmInfoGNUCOFF d T thisGNU).ExceptionsType
      ≠ (X86MCAsmInfoMicrosoft d T thisMS).ExceptionsType := by
  rw [gnucoff_exceptionsType, microsoft_exceptionsType, hbase]
  exact ⟨rfl, rfl, by decide⟩

/-- C6 at concrete inputs: the 64-bit triple on the sample base. -/
theorem C6_coff_exception_models_witness :
    sampleBase.ExceptionsType = ExceptionHandling.None ∧
    ((X86MCAsmInfoGNUCOFF .ATT tripleX64 sampleBase).ExceptionsType
        = ExceptionHandling.DwarfCFI ∧
    (X86MCAsmInfoMicrosoft .ATT tripleX64 sampleBase).ExceptionsType
        = ExceptionHandling.None ∧
    (X86MCAsmInfoGNUCOFF .ATT tripleX64 sampleBase).ExceptionsType
      ≠ (X86MCAsmInfoMicrosoft .ATT tripleX64 sampleBase).ExceptionsType) :=
  ⟨by decide, C6_coff_exception_models .ATT tripleX64 sampleBase sampleBase (by decide)⟩

/-! ## Lookup in the register-alias table -/

/-- C7: lookup by symbolic name over `x86_asm_table` is three-valued and agrees
with the table: `{si}`, `{di}`, `{ax}`, `{cx}`, `{memory}`, `{cc}` give the
native spellings `S`, `D`, `a`, `c`, `memory`, `cc`; `{flags}`, `{dirflag}`,
`{fpsr}`, `{fpcr}` give "omit"; every other name gives "unknown".  "omit" is
returned for those four names only. -/
theorem C7_lookupAlias_table (name : String) :
    lookupAlias x86_asm_table name =
      (if name = "\x7bsi\x7d" then AliasLookup.native "S"
       else if name = "\x7bdi\x7d" then AliasLookup.native "D"
       else if name = "\x7bax\x7d" then AliasLookup.native "a"
       else if name = "\x7bcx\x7d" then AliasLookup.native "c"
       else if name = "\x7bmemory\x7d" then AliasLookup.native "memory"
       else if name = "\x7bflags\x7d" then AliasLookup.omit
       else if name = "\x7bdirflag\x7d" then AliasLookup.omit
       else if name = "\x7bfpsr\x7d" then AliasLookup.omit
       else if name = "\x7bfpcr\x7d" then AliasLookup.omit
       else if name = "\x7bcc\x7d" then AliasLookup.native "cc"
       else AliasLookup.unknown) ∧
    (lookupAlias x86_asm_table name = AliasLookup.omit ↔
      (name = "\x7bflags\x7d" ∨ name = "\x7bdirflag\x7d" ∨ name = "\x7bfpsr\x7d" ∨
        name = "\x7bfpcr\x7d")) ∧
    (lookupAlias x86_asm_table name = AliasLookup.unknown ↔
      (name ≠ "\x7bsi\x7d" ∧ name ≠ "\x7bdi\x7d" ∧ name ≠ "\x7bax\x7d" ∧
        name ≠ "\x7bcx\x7d" ∧ name ≠ "\x7bmemory\x7d" ∧ name ≠ "\x7bflags\x7d" ∧
        name ≠ "\x7bdirflag\x7d" ∧ name ≠ "\x7bfpsr\x7d" ∧ name ≠ "\x7bfpcr\x7d" ∧
        name ≠ "\x7bcc\x7d")) := by
  have key : lookupAlias x86_asm_table name =
      (if name = "\x7bsi\x7d" then AliasLookup.native "S"
       else if name = "\x7bdi\x7d" then AliasLookup.native "D"
       else if name = "\x7bax\x7d" then AliasLookup.native "a"
       else if name = "\x7bcx\x7d" then AliasLookup.native "c"
       else if name = "\x7bmemory\x7d" then AliasLookup.native "memory"
       else if name = "\x7bflags\x7d" then AliasLookup.omit
       else if name = "\x7bdirflag\x7d" then AliasLookup.omit
       else if name = "\x7bfpsr\x7d" then AliasLookup.omit
       else if name = "\x7bfpcr\x7d" then AliasLookup.omit
       else if name = "\x7bcc\x7d" then AliasLookup.native "cc"
       else AliasLookup.unknown) := by
    simp [x86_asm_table, lookupAlias]
  refine ⟨key, ?_, ?_⟩
  · rw [key]
    split_ifs with h1 h2 h3 h4 h5 h6 h7 h8 h9 h10 <;> simp [*]
  · rw [key]
    by_cases h1 : name = "\x7bsi\x7d"
    · simp [h1]
    by_cases h2 : name = "\x7bdi\x7d"
    · simp [h2]
    by_cases h3 : name = "\x7bax\x7d"
    · simp [h3]
    by_cases h4 : name = "\x7bcx\x7d"
    · simp [h4]
    by_cases h5 : name = "\x7bmemory\x7d"
    · simp [h5]
    by_cases h6 : name = "\x7bflags\x7d"
    · simp [h6]
    by_cases h7 : name = "\x7bdirflag\x7d"
    · simp [h7]
    by_cases h8 : name = "\x7bfpsr\x7d"
    · simp [h8]
    by_cases h9 : name = "\x7bfpcr\x7d"
    · simp [h9]
    by_cases h10 : name = "\x7bcc\x7d"
    · simp [h10]
    simp [h1, h2, h3, h4, h5, h6, h7, h8, h9, h10]

/-! ## The dialect -/

/-- Every constructor stores the numeric value of the selector in `AssemblerDialect`. -/
theorem construct_dialect (v : Variant) (d : AsmWriterFlavorTy) (T : Triple) (this : MCAsmInfo) :
    (v.construct d T this).AssemblerDialect = d.toNat := by
  cases v <;>
    simp only [Variant.construct, X86MCAsmInfoDarwin, X86ELFMCAsmInfo, X86MCAsmInfoMicrosoft,
      X86MCAsmInfoGNUCOFF] <;>
    by_cases h : T.getArch = ArchType.x86_64 <;>
    by_cases h2 : (T.getOS == OSType.OpenBSD && T.getArch == ArchType.x86) = true <;>
    simp [h, h2]

/-- C8: for each of the four variant constructors, every triple, every base
state and every selector value `d`, the constructed descriptor's dialect is
`d` (its numeric value: 0 for AT&T, 1 for Intel), so the dialect read back
identifies the selector value. -/
theorem C8_dialect_equals_selector (v : Variant) (d : AsmWriterFlavorTy) (T : Triple)
    (this : MCAsmInfo) :
    (v.construct d T this).AssemblerDialect = d.toNat ∧
    ((v.construct d T this).AssemblerDialect = 0 ↔ d = AsmWriterFlavorTy.ATT) ∧
    ((v.construct d T this).AssemblerDialect = 1 ↔ d = AsmWriterFlavorTy.Intel) := by
  rw [construct_dialect]
  cases d <;> simp [AsmWriterFlavorTy.toNat]

/-! ## Determinism -/

/-- Both COFF constructors set the two prefixes on `x86_64` and leave them
alone otherwise. -/
theorem coff_prefixes (d : AsmWriterFlavorTy) (T : Triple) (this : MCAsmInfo) :
    (X86MCAsmInfoMicrosoft d T this).GlobalPrefix
      = (if T.getArch = ArchType.x86_64 then some "" else this.GlobalPrefix) ∧
    (X86MCAsmInfoMicrosoft d T this).PrivateGlobalPrefix
      = (if T.getArch = ArchType.x86_64 then some ".L" else this.PrivateGlobalPrefix) ∧
    (X86MCAsmInfoGNUCOFF d T this).GlobalPrefix
      = (if T.getArch = ArchType.x86_64 then some "" else this.GlobalPrefix) ∧
    (X86MCAsmInfoGNUCOFF d T this).PrivateGlobalPrefix
      = (if T.getArch = ArchType.x86_64 then some ".L" else this.PrivateGlobalPrefix) := by
  unfold X86MCAsmInfoMicrosoft X86MCAsmInfoGNUCOFF
  by_cases h : T.getArch = ArchType.x86_64 <;> simp [h]

/-- C10: for every triple, when the architecture is `x86_64` both COFF
descriptors have global prefix `""` and private prefix `".L"`; otherwise each
keeps the prefixes of its base unchanged; hence, built on bases with the same
prefixes, the Microsoft and GNU descriptors have identical prefixes. -/
theorem C10_coff_prefixes_agree (d : AsmWriterFlavorTy) (T : Triple)
    (thisMS thisGNU : MCAsmInfo)
    (hg : thisMS.GlobalPrefix = thisGNU.GlobalPrefix)
    (hp : thisMS.PrivateGlobalPrefix = thisGNU.PrivateGlobalPrefix) :
    (T.getArch = ArchType.x86_64 →
      (X86MCAsmInfoMicrosoft d T thisMS).GlobalPrefix = some "" ∧
      (X86MCAsmInfoMicrosoft d T thisMS).PrivateGlobalPrefix = some ".L" ∧
      (X86MCAsmInfoGNUCOFF d T thisGNU).GlobalPrefix = some "" ∧
      (X86MCAsmInfoGNUCOFF d T thisGNU).PrivateGlobalPrefix = some ".L") ∧
    (T.getArch ≠ ArchType.x86_64 →
      (X86MCAsmInfoMicrosoft d T thisMS).GlobalPrefix = thisMS.GlobalPrefix ∧
      (X86MCAsmInfoMicrosoft d T thisMS).PrivateGlobalPrefix = thisMS.PrivateGlobalPrefix ∧
      (X86MCAsmInfoGNUCOFF d T thisGNU).GlobalPrefix = thisGNU.GlobalPrefix ∧
      (X86MCAsmInfoGNUCOFF d T thisGNU).PrivateGlobalPrefix = thisGNU.PrivateGlobalPrefix) ∧
    (X86MCAsmInfoMicrosoft d T thisMS).GlobalPrefix
      = (X86MCAsmInfoGNUCOFF d T thisGNU).GlobalPrefix ∧
    (X86MCAsmInfoMicrosoft d T thisMS).PrivateGlobalPrefix
      = (X86MCAsmInfoGNUCOFF d T thisGNU).PrivateGlobalPrefix := by
  obtain ⟨m1, m2, _, _⟩ := coff_prefixes d T thisMS
  obtain ⟨_, _, g1, g2⟩ := coff_prefixes d T thisGNU
  rw [m1, m2, g1, g2]
  by_cases h : T.getArch = ArchType.x86_64 <;> simp [h, hg, hp]

/-- C10 at concrete inputs: the 64-bit triple on the sample base. -/
theorem C10_coff_prefixes_agree_witness :
    sampleBase.GlobalPrefix = sampleBase.GlobalPrefix ∧
    sampleBase.PrivateGlobalPrefix = sampleBase.PrivateGlobalPrefix ∧
    ((tripleX64.getArch = ArchType.x86_64 →
      (X86MCAsmInfoMicrosoft .ATT tripleX64 sampleBase).GlobalPrefix = some "" ∧
      (X86MCAsmInfoMicrosoft .ATT tripleX64 sampleBase).PrivateGlobalPrefix = some ".L" ∧
      (X86MCAsmInfoGNUCOFF .ATT tripleX64 sampleBase).GlobalPrefix = some "" ∧
      (X86MCAsmInfoGNUCOFF .ATT tripleX64 sampleBase).PrivateGlobalPrefix = some ".L") ∧
    (tripleX64.getArch ≠ ArchType.x86_64 →
      (X86MCAsmInfoMicrosoft .ATT tripleX64 sampleBase).GlobalPrefix
        = sampleBase.GlobalPrefix ∧
      (X86MCAsmInfoMicrosoft .ATT tripleX64 sampleBase).PrivateGlobalPrefix
        = sampleBase.PrivateGlobalPrefix ∧
      (X86MCAsmInfoGNUCOFF .ATT tripleX64 sampleBase).GlobalPrefix
        = sampleBase.GlobalPrefix ∧
      (X86MCAsmInfoGNUCOFF .ATT tripleX64 sampleBase).PrivateGlobalPrefix
        = sampleBase.PrivateGlobalPrefix) ∧
    (X86MCAsmInfoMicrosoft .ATT tripleX64 sampleBase).GlobalPrefix
      = (X86MCAsmInfoGNUCOFF .ATT tripleX64 sampleBase).GlobalPrefix ∧
    (X86MCAsmInfoMicrosoft .ATT tripleX64 sampleBase).PrivateGlobalPrefix
      = (X86MCAsmInfoGNUCOFF .ATT tripleX64 sampleBase).PrivateGlobalPrefix) :=
  ⟨rfl, rfl, C10_coff_prefixes_agree .ATT tripleX64 sampleBase sampleBase rfl rfl⟩

/-! ## Fixed fields of the ELF and Mach-O variants -/

/-- C11: for every triple, selector value and base state, the ELF-style
descriptor has private prefix `".L"`, weak-reference directive `"\t.weak\t"`
(present, not null), program-counter symbol `"."`, LEB128 support, debug
information support, and exception model `DwarfCFI`. -/
theorem C11_elf_fixed_fields (d : AsmWriterFlavorTy) (T : Triple) (this : MCAsmInfo) :
    (X86ELFMCAsmInfo d T this).PrivateGlobalPrefix = some ".L" ∧
    (X86ELFMCAsmInfo d T this).WeakRefDirective = some "\t.weak\t" ∧
    (X86ELFMCAsmInfo d T this).WeakRefDirective ≠ none ∧
    (X86ELFMCAsmInfo d T this).PCSymbol = some "." ∧
    (X86ELFMCAsmInfo d T this).HasLEB128 = true ∧
    (X86ELFMCAsmInfo d T this).SupportsDebugInformation = true ∧
    (X86ELFMCAsmInfo d T this).ExceptionsType = ExceptionHandling.DwarfCFI := by
  unfold X86ELFMCAsmInfo
  by_cases h : T.getArch = ArchType.x86_64 <;>
    by_cases h2 : (T.getOS == OSType.OpenBSD && T.getArch == ArchType.x86) = true <;>
    simp [h, h2]

/-- C12: for every triple, selector value and base state, the Mach-O-style
descriptor has comment string `"##"` (two characters), program-counter symbol
`"."` (one character), debug information support, the inline-info-section
convention, and exception model `DwarfCFI`. -/
theorem C12_darwin_fixed_fields (d : AsmWriterFlavorTy) (T : Triple) (this : MCAsmInfo) :
    (X86MCAsmInfoDarwin d T this).CommentString = some "##" ∧
    ((X86MCAsmInfoDarwin d T this).CommentString.map String.length) = some 2 ∧
    (X86MCAsmInfoDarwin d T this).PCSymbol = some "." ∧
    ((X86MCAsmInfoDarwin d T this).PCSymbol.map String.length) = some 1 ∧
    (X86MCAsmInfoDarwin d T this).SupportsDebugInformation = true ∧
    (X86MCAsmInfoDarwin d T this).DwarfUsesInlineInfoSection = true ∧
    (X86MCAsmInfoDarwin d T this).ExceptionsType = ExceptionHandling.DwarfCFI := by
  have hc : (X86MCAsmInfoDarwin d T this).CommentString = some "##" := by
    unfold X86MCAsmInfoDarwin
    by_cases h : T.getArch = ArchType.x86_64 <;> simp [h]
  have hp : (X86MCAsmInfoDarwin d T this).PCSymbol = some "." := by
    unfold X86MCAsmInfoDarwin
    by_cases h : T.getArch = ArchType.x86_64 <;> simp [h]
  refine ⟨hc, ?_, hp, ?_, ?_, ?_, ?_⟩
  · rw [hc]; rfl
  · rw [hp]; rfl
  · unfold X86MCAsmInfoDarwin
    by_cases h : T.getArch = ArchType.x86_64 <;> simp [h]
  · unfold X86MCAsmInfoDarwin
    by_cases h : T.getArch = ArchType.x86_64 <;> simp [h]
  · unfold X86MCAsmInfoDarwin
    by_cases h : T.getArch = ArchType.x86_64 <;> simp [h]

/-- C13: for every triple, selector value and base state, the 64-bit Mach-O
sub-variant is the same record as its sibling built from the same inputs: its
constructor adds or changes no field. -/
theorem C13_darwin64_same_as_darwin (d : AsmWriterFlavorTy) (T : Triple) (this : MCAsmInfo) :
    X86_64MCAsmInfoDarwin d T this = X86MCAsmInfoDarwin d T this ∧
    (X86_64MCAsmInfoDarwin d T this).PointerSize = (X86MCAsmInfoDarwin d T this).PointerSize ∧
    (X86_64MCAsmInfoDarwin d T this).Data64bitsDirective
      = (X86MCAsmInfoDarwin d T this).Data64bitsDirective ∧
    (X86_64MCAsmInfoDarwin d T this).AssemblerDialect
      = (X86MCAsmInfoDarwin d T this).AssemblerDialect := by
  simp only [X86_64MCAsmInfoDarwin, and_self]

/-! ## The non-executable-stack section -/

/-- C14: for every section context and every section lookup of the context,
`getNonexecutableStackSection` of the ELF-style variant returns what the
lookup gives for the name `.note.GNU-stack`, type `SHT_PROGBITS`, flags 0 and
kind metadata; the result is the same for descriptors built from any two
triples (and selector values). -/
theorem C14_nonexecutable_stack_section (getELFSection : GetELFSection) (Ctx : MCContext)
    (d1 d2 : AsmWriterFlavorTy) (T1 T2 : Triple) (this : MCAsmInfo) :
    X86ELFMCAsmInfo.getNonexecutableStackSection getELFSection (X86ELFMCAsmInfo d1 T1 this) Ctx
      = getELFSection Ctx ".note.GNU-stack" ELF.SectionType.SHT_PROGBITS 0
          SectionKind.Metadata ∧
    X86ELFMCAsmInfo.getNonexecutableStackSection getELFSection (X86ELFMCAsmInfo d1 T1 this) Ctx
      = X86ELFMCAsmInfo.getNonexecutableStackSection getELFSection
          (X86ELFMCAsmInfo d2 T2 this) Ctx := by
  simp only [X86ELFMCAsmInfo.getNonexecutableStackSection, SectionKind.getMetadata, and_self]

/-- With a lookup that returns the section its arguments describe, the ELF
class hands out the `.note.GNU-stack` metadata section and the Microsoft COFF
class hands out nothing. -/
theorem stack_section_on_sample_lookup :
    X86Class.getNonexecutableStackSection .ELF sampleGetELFSection sampleBase (MCContext.mk 0)
      = some { SectionName := ".note.GNU-stack", SectionType := ELF.SectionType.SHT_PROGBITS,
               Flags := 0, Kind := SectionKind.Metadata } ∧
    X86Class.getNonexecutableStackSection .Microsoft sampleGetELFSection sampleBase
      (MCContext.mk 0) = none := by
  decide

/-! ## The dialect selector's configuration -/

/-- C15: the selector accepts exactly the literals `att` and `intel`: `att`
gives AT&T-style (numeric value 0), `intel` gives Intel-style (numeric value
1), no configuration gives the default AT&T-style, and every other input is an
error carrying the allowed literals, never a value. -/
theorem C15_dialect_selector_parse (arg : String) :
    parseAsmWriterFlavor (some "att") = Except.ok AsmWriterFlavorTy.ATT ∧
    AsmWriterFlavorTy.ATT.toNat = 0 ∧
    parseAsmWriterFlavor (some "intel") = Except.ok AsmWriterFlavorTy.Intel ∧
    AsmWriterFlavorTy.Intel.toNat = 1 ∧
    parseAsmWriterFlavor none = Except.ok AsmWriterFlavorTy.ATT ∧
    parseAsmWriterFlavor (some arg) =
      (if arg = "att" then Except.ok AsmWriterFlavorTy.ATT
       else if arg = "intel" then Except.ok AsmWriterFlavorTy.Intel
       else Except.error ["att", "intel"]) ∧
    ((∃ v, parseAsmWriterFlavor (some arg) = Except.ok v) ↔ (arg = "att" ∨ arg = "intel")) := by
  have key : parseAsmWriterFlavor (some arg) =
      (if arg = "att" then Except.ok AsmWriterFlavorTy.ATT
       else if arg = "intel" then Except.ok AsmWriterFlavorTy.Intel
       else Except.error ["att", "intel"]) := by
    by_cases h1 : arg = "att"
    · subst h1
      simp [parseAsmWriterFlavor, AsmWriterFlavorValues, List.find?]
    · by_cases h2 : arg = "intel"
      · subst h2
        simp [parseAsmWriterFlavor, AsmWriterFlavorValues, List.find?]
      · have h1b : ("att" == arg) = false := by
          simpa using fun e => h1 e.symm
        have h2b : ("intel" == arg) = false := by
          simpa using fun e => h2 e.symm
        simp [parseAsmWriterFlavor, AsmWriterFlavorValues, AsmWriterFlavorLiterals,
          List.find?, h1, h2, h1b, h2b]
  refine ⟨?_, rfl, ?_, rfl, rfl, key, ?_⟩
  · simp [parseAsmWriterFlavor, AsmWriterFlavorValues, List.find?]
  · simp [parseAsmWriterFlavor, AsmWriterFlavorValues, List.find?]
  · rw [key]
    by_cases h1 : arg = "att"
    · simp [h1]
    · by_cases h2 : arg = "intel"
      · simp [h2]
      · simp [h1, h2]

/-! ## The alignment fill byte -/

/-- C16: for each of the four variants, every triple, selector value and base
state, the constructed descriptor has alignment fill byte `0x90`. -/
theorem C16_text_align_fill (v : Variant) (d : AsmWriterFlavorTy) (T : Triple)
    (this : MCAsmInfo) :
    (v.construct d T this).TextAlignFillValue = 0x90 := by
  cases v <;>
    simp only [Variant.construct, X86MCAsmInfoDarwin, X86ELFMCAsmInfo, X86MCAsmInfoMicrosoft,
      X86MCAsmInfoGNUCOFF] <;>
    by_cases h : T.getArch = ArchType.x86_64 <;>
    by_cases h2 : (T.getOS == OSType.OpenBSD && T.getArch == ArchType.x86) = true <;>
    simp [h, h2]

/-! ## Extension points of the other variants -/

/-- C17: a virtual call of `getNonexecutableStackSection` yields a section
exactly on the ELF-style class and the base "not supported" outcome on the
Mach-O, Mach-O 64-bit, Microsoft COFF and GNU COFF classes; a virtual call of
`getExprForPersonalitySymbol` yields an expression exactly on the Mach-O 64-bit
class and the base "not supported" outcome on every other class. -/
theorem C17_extension_points (c : X86Class) (getELFSection : GetELFSection) (this : MCAsmInfo)
    (Ctx : MCContext) (Sym : MCSymbol) (Encoding : Nat) (Streamer : MCStreamer) :
    (c.getNonexecutableStackSection getELFSection this Ctx =
      (if c = X86Class.ELF then
        some (getELFSection Ctx ".note.GNU-stack" ELF.SectionType.SHT_PROGBITS 0
          SectionKind.Metadata)
       else none)) ∧
    (c.getNonexecutableStackSection getELFSection this Ctx = none ↔ c ≠ X86Class.ELF) ∧
    (c.getExprForPersonalitySymbol this Sym Encoding Streamer =
      (if c = X86Class.Darwin64 then
        some (MCExpr.Binary Opcode.Add (MCExpr.SymbolRef Sym VariantKind.VK_GOTPCREL)
          (MCExpr.Constant 4))
       else none)) ∧
    (c.getExprForPersonalitySymbol this Sym Encoding Streamer = none ↔
      c ≠ X86Class.Darwin64) := by
  cases c <;>
    simp [X86Class.getNonexecutableStackSection, X86Class.getExprForPersonalitySymbol,
      MCAsmInfo.getNonexecutableStackSection, MCAsmInfo.getExprForPersonalitySymbol,
      X86ELFMCAsmInfo.getNonexecutableStackSection, SectionKind.getMetadata,
      X86_64MCAsmInfoDarwin.getExprForPersonalitySymbol, MCBinaryExpr.CreateAdd,
      MCSymbolRefExpr.Create, MCConstantExpr.Create]

/-! ## What the descriptor depends on -/

/-- C18: the Mach-O, Microsoft COFF and GNU COFF constructors give the same
record for any two triples with the same architecture, whatever their vendor,
OS and environment; the ELF constructor gives the same record for any two
triples with the same architecture and the same OS. -/
theorem C18_depends_on_arch_and_os (d : AsmWriterFlavorTy) (T1 T2 : Triple) (this : MCAsmInfo)
    (harch : T1.getArch = T2.getArch) :
    X86MCAsmInfoDarwin d T1 this = X86MCAsmInfoDarwin d T2 this ∧
    X86MCAsmInfoMicrosoft d T1 this = X86MCAsmInfoMicrosoft d T2 this ∧
    X86MCAsmInfoGNUCOFF d T1 this = X86MCAsmInfoGNUCOFF d T2 this ∧
    (T1.getOS = T2.getOS → X86ELFMCAsmInfo d T1 this = X86ELFMCAsmInfo d T2 this) := by
  refine ⟨?_, ?_, ?_, fun hos => ?_⟩
  · simp only [X86MCAsmInfoDarwin, harch]
  · simp only [X86MCAsmInfoMicrosoft, harch]
  · simp only [X86MCAsmInfoGNUCOFF, harch]
  · simp only [X86ELFMCAsmInfo, harch, hos]

/-- C18 at concrete inputs: two 32-bit triples that differ in vendor, OS and
environment. -/
theorem C18_depends_on_arch_and_os_witness :
    tripleX86.getArch = tripleX86Other.getArch ∧ tripleX86 ≠ tripleX86Other ∧
    (X86MCAsmInfoDarwin .ATT tripleX86 sampleBase
      = X86MCAsmInfoDarwin .ATT tripleX86Other sampleBase ∧
    X86MCAsmInfoMicrosoft .ATT tripleX86 sampleBase
      = X86MCAsmInfoMicrosoft .ATT tripleX86Other sampleBase ∧
    X86MCAsmInfoGNUCOFF .ATT tripleX86 sampleBase
      = X86MCAsmInfoGNUCOFF .ATT tripleX86Other sampleBase ∧
    (tripleX86.getOS = tripleX86Other.getOS →
      X86ELFMCAsmInfo .ATT tripleX86 sampleBase
        = X86ELFMCAsmInfo .ATT tripleX86Other sampleBase)) :=
  ⟨rfl, by decide, C18_depends_on_arch_and_os .ATT tripleX86 tripleX86Other sampleBase rfl⟩

/-- Two 32-bit OpenBSD triples that differ in vendor and environment give the
same ELF-style descriptor. -/
theorem elf_same_for_openbsd32_triples :
    tripleOpenBSD32 ≠ tripleOpenBSD32Other ∧
    X86ELFMCAsmInfo .ATT tripleOpenBSD32 sampleBase
      = X86ELFMCAsmInfo .ATT tripleOpenBSD32Other sampleBase := by
  decide

/-- C19: for each of the four variants and every triple and base state, the
descriptors built under two selector values differ in the dialect field only:
overwriting the dialect of one gives the other, and every other field (pointer
size, prefixes, comment string, program-counter symbol, weak directive, fill
byte, LEB128 and debug flags, exception model, 64-bit data directive, alias
table) is the same under AT&T and under Intel. -/
theorem C19_selector_frames_dialect (v : Variant) (T : Triple) (this : MCAsmInfo) :
    (∀ d1 d2 : AsmWriterFlavorTy,
      v.construct d1 T this
        = { v.construct d2 T this with AssemblerDialect := d1.toNat }) ∧
    (v.construct .ATT T this).PointerSize = (v.construct .Intel T this).PointerSize ∧
    (v.construct .ATT T this).AsmTransCBE = (v.construct .Intel T this).AsmTransCBE ∧
    (v.construct .ATT T this).TextAlignFillValue
      = (v.construct .Intel T this).TextAlignFillValue ∧
    (v.construct .ATT T this).Data64bitsDirective
      = (v.construct .Intel T this).Data64bitsDirective ∧
    (v.construct .ATT T this).CommentString = (v.construct .Intel T this).CommentString ∧
    (v.construct .ATT T this).PCSymbol = (v.construct .Intel T this).PCSymbol ∧
    (v.construct .ATT T this).GlobalPrefix = (v.construct .Intel T this).GlobalPrefix ∧
    (v.construct .ATT T this).PrivateGlobalPrefix
      = (v.construct .Intel T this).PrivateGlobalPrefix ∧
    (v.construct .ATT T this).WeakRefDirective
      = (v.construct .Intel T this).WeakRefDirective ∧
    (v.construct .ATT T this).HasLEB128 = (v.construct .Intel T this).HasLEB128 ∧
    (v.construct .ATT T this).SupportsDebugInformation
      = (v.construct .Intel T this).SupportsDebugInformation ∧
    (v.construct .ATT T this).DwarfUsesInlineInfoSection
      = (v.construct .Intel T this).DwarfUsesInlineInfoSection ∧
    (v.construct .ATT T this).ExceptionsType = (v.construct .Intel T this).ExceptionsType := by
  have key : ∀ d1 d2 : AsmWriterFlavorTy,
      v.construct d1 T this
        = { v.construct d2 T this with AssemblerDialect := d1.toNat } := by
    intro d1 d2
    cases v <;>
      simp only [Variant.construct, X86MCAsmInfoDarwin, X86ELFMCAsmInfo, X86MCAsmInfoMicrosoft,
        X86MCAsmInfoGNUCOFF] <;>
      by_cases h : T.getArch = ArchType.x86_64 <;>
      by_cases h2 : (T.getOS == OSType.OpenBSD && T.getArch == ArchType.x86) = true <;>
      simp [h, h2]
  refine ⟨key, ?_, ?_, ?_, ?_, ?_, ?_, ?_, ?_, ?_, ?_, ?_, ?_, ?_⟩ <;>
    rw [key .ATT .Intel]

/-! ## Well-formedness of the register-alias table -/

/-- A name that is not the symbolic name of any pair is not found by the
first-match lookup. -/
theorem lookupAlias_unknown_of_not_mem (t : AsmTable) (name : String)
    (h : name ∉ (tablePairs t).map Prod.fst) : lookupAlias t name = AliasLookup.unknown := by
  induction t using tablePairs.induct with
  | case1 key spelling rest ih =>
    simp only [tablePairs, List.map_cons, List.mem_cons, not_or] at h
    simp only [lookupAlias, h.1, if_false]
    exact ih h.2
  | case2 t hne => exact lookupAlias.eq_2 t name hne

/-- A name that is not the symbolic name of any pair is not found by the
last-match lookup. -/
theorem lookupAliasLast_unknown_of_not_mem (t : AsmTable) (name : String)
    (h : name ∉ (tablePairs t).map Prod.fst) :
    lookupAliasLast t name = AliasLookup.unknown := by
  induction t using tablePairs.induct with
  | case1 key spelling rest ih =>
    simp only [tablePairs, List.map_cons, List.mem_cons, not_or] at h
    simp only [lookupAliasLast, ih h.2, h.1, if_false]
  | case2 t hne => exact lookupAliasLast.eq_2 t name hne

/-- On a table whose symbolic names are pairwise distinct, the first matching
pair and the last matching pair give the same lookup result. -/
theorem lookupAlias_eq_last_of_nodup (t : AsmTable)
    (h : ((tablePairs t).map Prod.fst).Nodup) (name : String) :
    lookupAlias t name = lookupAliasLast t name := by
  induction t using tablePairs.induct with
  | case1 key spelling rest ih =>
    simp only [tablePairs, List.map_cons, List.nodup_cons] at h
    by_cases hn : name = key
    · subst hn
      simp only [lookupAlias, lookupAliasLast, lookupAliasLast_unknown_of_not_mem rest name h.1,
        if_true]
    · simp only [lookupAlias, lookupAliasLast, hn, if_false, ih h.2]
      cases lookupAliasLast rest name <;> rfl
  | case2 t hne => rw [lookupAlias.eq_2 t name hne, lookupAliasLast.eq_2 t name hne]

/-- C20: `x86_asm_table` is the layout of ten complete (symbolic name, native
spelling) pairs followed by the `0, 0` terminator, with no null pointer before
the terminator; every symbolic name is non-empty and of the form `{...}`; the
symbolic names are pairwise distinct; and so, for every name, the lookup gives
the same result whether the first or the last matching pair decides. -/
theorem C20_table_well_formed (name : String) :
    x86_asm_table = layoutPairs (tablePairs x86_asm_table) ∧
    (tablePairs x86_asm_table).length = 10 ∧
    x86_asm_table.length = 22 ∧
    x86_asm_table.drop 20 = [none, none] ∧
    (∀ e ∈ x86_asm_table.take 20, e ≠ none) ∧
    (∀ p ∈ tablePairs x86_asm_table, p.1 ≠ "" ∧ isBraced p.1 = true) ∧
    ((tablePairs x86_asm_table).map Prod.fst).Nodup ∧
    lookupAlias x86_asm_table name = lookupAliasLast x86_asm_table name := by
  have hnodup : ((tablePairs x86_asm_table).map Prod.fst).Nodup := by decide
  refine ⟨by decide, by decide, by decide, by decide, by decide, by decide, hnodup, ?_⟩
  exact lookupAlias_eq_last_of_nodup x86_asm_table hnodup name

end X86MCAsmInfo
